import Mathlib

/-!
Verification of the security-requirements pipeline (`security_requirements_system`).

Shallow embedding of:
  * `main.py`: the `SecurityRequirementsFlow` state machine (`SecurityRequirementsState`,
    the stage chain, the validation-output parse of `validate_requirements`, and the
    `evaluate_and_decide` branch),
  * `tools/weaviate_tool.py`: `WeaviateQueryTool._run` (argument recovery, validation,
    result formatting),
  * `tools/weaviate_setup.py`: the record shape built by `ingest_security_standards`.

External collaborators (the model-invocation crews, the vector-database backend, the
filesystem) are modelled as oracle parameters; everything the repository itself computes
is translated directly from the source.

Python `float` is modelled by the exact decimal type `Dec`: every numeric literal the
claims exercise is an exact decimal whose comparisons agree with the binary-float
comparisons the code performs, and no claim depends on binary rounding.  The spec-level
theorem statements convert to `Rat` via `Dec.toRat`.  Python `json.loads` is modelled
by a standard-JSON parser (`Json.loads` below); CPython's non-standard `NaN`/`Infinity`
extension and `\uXXXX` surrogate pairing are not modelled, and no claim exercises them.
-/

/-- Exact decimal number `mant / 10 ^ scale`.  JSON numbers and the float
literals the validation parse extracts are all decimal, so this represents
them exactly; comparisons are by cross-multiplication, so they agree with the
rational (and, on every value the claims exercise, the Python `float`)
comparison.  Kept as a plain pair so that all arithmetic reduces in the
kernel. -/
structure Dec where
  mant : Int
  scale : Nat
deriving DecidableEq, Repr

/-- Value order on decimals: `a ≤ b` as rationals. -/
def Dec.le (a b : Dec) : Prop :=
  a.mant * (10 : Int) ^ b.scale ≤ b.mant * (10 : Int) ^ a.scale

instance (a b : Dec) : Decidable (Dec.le a b) := by
  unfold Dec.le; infer_instance

/-- The rational value of a decimal, for spec-level statements. -/
def Dec.toRat (a : Dec) : Rat :=
  (a.mant : Rat) / (10 : Rat) ^ a.scale

/-- Model of a Python value produced by `json.loads` (`main.py` line 185).
Python dicts keep the last binding for a duplicated key; objects are kept as
association lists and read with `jsonLookupLast`. -/
inductive Json where
  | null : Json
  | bool (b : Bool) : Json
  | num (q : Dec) : Json
  | str (s : String) : Json
  | arr (elems : List Json) : Json
  | obj (members : List (String × Json)) : Json

/-- JSON whitespace characters (as accepted between tokens by `json.loads`). -/
def jsonWs (c : Char) : Bool :=
  c = ' ' || c = '\t' || c = '\n' || c = '\r'

/-- Drop leading JSON whitespace. -/
def skipWs : List Char → List Char
  | [] => []
  | c :: cs => if jsonWs c then skipWs cs else c :: cs

/-- Hexadecimal digit value, for `\uXXXX` escapes. -/
def hexVal (c : Char) : Option Nat :=
  if '0' ≤ c ∧ c ≤ '9' then some (c.toNat - '0'.toNat)
  else if 'a' ≤ c ∧ c ≤ 'f' then some (c.toNat - 'a'.toNat + 10)
  else if 'A' ≤ c ∧ c ≤ 'F' then some (c.toNat - 'A'.toNat + 10)
  else Option.none

/-- Parse the body of a JSON string (after the opening quote), returning the
decoded characters and the input after the closing quote.  Strict mode: raw
control characters below U+0020 are rejected, as in `json.loads`. -/
def parseStringBody : List Char → Option (List Char × List Char)
  | [] => Option.none
  | c :: cs =>
    if c = '"' then some ([], cs)
    else if c = '\\' then
      match cs with
      | [] => Option.none
      | e :: cs' =>
        if e = '"' then (parseStringBody cs').map (fun r => ('"' :: r.1, r.2))
        else if e = '\\' then (parseStringBody cs').map (fun r => ('\\' :: r.1, r.2))
        else if e = '/' then (parseStringBody cs').map (fun r => ('/' :: r.1, r.2))
        else if e = 'b' then (parseStringBody cs').map (fun r => ('\x08' :: r.1, r.2))
        else if e = 'f' then (parseStringBody cs').map (fun r => ('\x0c' :: r.1, r.2))
        else if e = 'n' then (parseStringBody cs').map (fun r => ('\n' :: r.1, r.2))
        else if e = 'r' then (parseStringBody cs').map (fun r => ('\r' :: r.1, r.2))
        else if e = 't' then (parseStringBody cs').map (fun r => ('\t' :: r.1, r.2))
        else if e = 'u' then
          match cs' with
          | h1 :: h2 :: h3 :: h4 :: cs'' =>
            match hexVal h1, hexVal h2, hexVal h3, hexVal h4 with
            | some a, some b, some c2, some d =>
              (parseStringBody cs'').map
                (fun r => (Char.ofNat (((a * 16 + b) * 16 + c2) * 16 + d) :: r.1, r.2))
            | _, _, _, _ => Option.none
          | _ => Option.none
        else Option.none
    else if c.toNat < 0x20 then Option.none
    else (parseStringBody cs).map (fun r => (c :: r.1, r.2))

/-- One or more decimal digits; returns them and the rest. -/
def takeDigits (cs : List Char) : List Char × List Char :=
  (cs.takeWhile Char.isDigit, cs.dropWhile Char.isDigit)

/-- Numeric value of a digit list. -/
def digitsToNat (ds : List Char) : Nat :=
  ds.foldl (fun acc c => acc * 10 + (c.toNat - '0'.toNat)) 0

/-- Optional fraction part `(. [0-9]+)?`: greedy, consuming nothing when the
dot is not followed by a digit (the regex simply matches less).  Returns the
fraction digits. -/
def numFrac (cs : List Char) : List Char × List Char :=
  match cs with
  | '.' :: rest =>
    let (fp, rest') := takeDigits rest
    if fp = [] then ([], cs)
    else (fp, rest')
  | _ => ([], cs)

/-- Optional exponent part `([eE] [+-]? [0-9]+)?`: greedy, consuming nothing
when it does not fully match. -/
def numExp (cs : List Char) : Int × List Char :=
  match cs with
  | 'e' :: '+' :: r2 =>
    (let (ed, r3) := takeDigits r2; if ed = [] then (0, cs) else ((digitsToNat ed : Int), r3))
  | 'e' :: '-' :: r2 =>
    (let (ed, r3) := takeDigits r2; if ed = [] then (0, cs) else (-(digitsToNat ed : Int), r3))
  | 'e' :: r2 =>
    (let (ed, r3) := takeDigits r2; if ed = [] then (0, cs) else ((digitsToNat ed : Int), r3))
  | 'E' :: '+' :: r2 =>
    (let (ed, r3) := takeDigits r2; if ed = [] then (0, cs) else ((digitsToNat ed : Int), r3))
  | 'E' :: '-' :: r2 =>
    (let (ed, r3) := takeDigits r2; if ed = [] then (0, cs) else (-(digitsToNat ed : Int), r3))
  | 'E' :: r2 =>
    (let (ed, r3) := takeDigits r2; if ed = [] then (0, cs) else ((digitsToNat ed : Int), r3))
  | _ => (0, cs)

/-- Parse a JSON number per the regex used by `json.loads`:
`-? (0 | [1-9][0-9]*) (. [0-9]+)? ([eE] [+-]? [0-9]+)?`.  The match is greedy
and leaves unconsumed input to the caller (which then rejects trailing junk),
exactly as the scanner's regex does. -/
def parseNumber (cs : List Char) : Option (Dec × List Char) :=
  let (neg, cs1) := match cs with
    | '-' :: rest => (true, rest)
    | _ => (false, cs)
  let (ip, cs2) : List Char × List Char :=
    match cs1 with
    | '0' :: rest => (['0'], rest)
    | _ => takeDigits cs1
  if ip = [] then Option.none
  else
    let (fp, cs3) := numFrac cs2
    let (e, cs4) := numExp cs3
    let mant : Int := (digitsToNat ip * 10 ^ fp.length + digitsToNat fp : Nat)
    let base : Dec :=
      if e ≥ 0 then ⟨mant * (10 : Int) ^ e.toNat, fp.length⟩
      else ⟨mant, fp.length + (-e).toNat⟩
    some (if neg then ⟨-base.mant, base.scale⟩ else base, cs4)

mutual

/-- Parse one JSON value (fuel-indexed; `Json.loads` supplies ample fuel). -/
def parseValue : Nat → List Char → Option (Json × List Char)
  | 0, _ => Option.none
  | Nat.succ fuel, cs =>
    match skipWs cs with
    | 'n' :: 'u' :: 'l' :: 'l' :: rest => some (Json.null, rest)
    | 't' :: 'r' :: 'u' :: 'e' :: rest => some (Json.bool true, rest)
    | 'f' :: 'a' :: 'l' :: 's' :: 'e' :: rest => some (Json.bool false, rest)
    | '"' :: rest => (parseStringBody rest).map (fun r => (Json.str (String.mk r.1), r.2))
    | '[' :: rest =>
      (match skipWs rest with
       | ']' :: rest' => some (Json.arr [], rest')
       | _ => (parseElems fuel rest).map (fun r => (Json.arr r.1, r.2)))
    | '\x7b' :: rest =>
      (match skipWs rest with
       | '\x7d' :: rest' => some (Json.obj [], rest')
       | _ => (parseMembers fuel rest).map (fun r => (Json.obj r.1, r.2)))
    | cs' => (parseNumber cs').map (fun r => (Json.num r.1, r.2))

/-- Parse the elements of a non-empty JSON array, up to and including `]`. -/
def parseElems : Nat → List Char → Option (List Json × List Char)
  | 0, _ => Option.none
  | Nat.succ fuel, cs =>
    match parseValue fuel cs with
    | Option.none => Option.none
    | some (v, rest) =>
      match skipWs rest with
      | ',' :: rest' => (parseElems fuel rest').map (fun r => (v :: r.1, r.2))
      | ']' :: rest' => some ([v], rest')
      | _ => Option.none

/-- Parse the members of a non-empty JSON object, up to and including the
closing brace. -/
def parseMembers : Nat → List Char → Option (List (String × Json) × List Char)
  | 0, _ => Option.none
  | Nat.succ fuel, cs =>
    match skipWs cs with
    | '"' :: rest =>
      (match parseStringBody rest with
       | Option.none => Option.none
       | some (k, rest1) =>
         match skipWs rest1 with
         | ':' :: rest2 =>
           (match parseValue fuel rest2 with
            | Option.none => Option.none
            | some (v, rest3) =>
              match skipWs rest3 with
              | ',' :: rest4 =>
                (parseMembers fuel rest4).map (fun r => ((String.mk k, v) :: r.1, r.2))
              | '\x7d' :: rest4 => some ([(String.mk k, v)], rest4)
              | _ => Option.none)
         | _ => Option.none)
    | _ => Option.none

end

/-- Model of Python's `json.loads` (`main.py` line 185): parse a complete JSON
document; trailing non-whitespace is an error. -/
def Json.loads (s : String) : Option Json :=
  match parseValue (s.length + 2) s.data with
  | some (j, rest) => if skipWs rest = [] then some j else Option.none
  | Option.none => Option.none

/-- Dict lookup on a parsed object: Python dicts keep the last binding of a
duplicated key, so we look the key up in the reversed member list. -/
def jsonLookupLast (members : List (String × Json)) (k : String) : Option Json :=
  List.lookup k members.reverse

example : (Json.loads "").isNone = true := by decide
example : (Json.loads "null").isSome = true := by decide

/-! ## The pattern-extraction tier (`main.py` lines 190-201)

Models of the two `re.search` calls (patterns: the literal field name, an
optional double or single quote, optional whitespace, a colon, optional
whitespace, then the captured group `[0-9.]+` resp. `true|false`, the second
with `re.IGNORECASE`) as leftmost-match scanners, and of Python's `float()` on the captured group. -/

/-- Python regex `\s` on ASCII text: space, tab, newline, carriage return,
vertical tab, form feed. -/
def pySpace (c : Char) : Bool :=
  c = ' ' || c = '\t' || c = '\n' || c = '\r' || c = '\x0b' || c = '\x0c'

/-- Characters matched by the score capture class `[0-9.]`. -/
def scoreChar (c : Char) : Bool :=
  c.isDigit || c = '.'

/-- Strip a literal prefix (case-sensitively); `none` when it does not match. -/
def stripLit : List Char → List Char → Option (List Char)
  | [], cs => some cs
  | _ :: _, [] => Option.none
  | p :: ps, c :: cs => if c = p then stripLit ps cs else Option.none

/-- Strip a literal prefix, ignoring ASCII case. -/
def stripLitCI : List Char → List Char → Option (List Char)
  | [], cs => some cs
  | _ :: _, [] => Option.none
  | p :: ps, c :: cs => if c.toLower = p.toLower then stripLitCI ps cs else Option.none

/-- After the literal pattern name: an optional double or single quote,
optional whitespace, a colon, optional whitespace. -/
def matchColon (cs : List Char) : Option (List Char) :=
  let cs := match cs with
    | c :: rest => if c = '"' ∨ c = Char.ofNat 39 then rest else cs
    | [] => cs
  match cs.dropWhile pySpace with
  | ':' :: rest => some (rest.dropWhile pySpace)
  | _ => Option.none

/-- Try to match the `overall_score` pattern at the head of `cs`, returning the
captured `[0-9.]+` group. -/
def matchScoreAt (cs : List Char) : Option String :=
  match stripLit "overall_score".data cs with
  | Option.none => Option.none
  | some rest =>
    match matchColon rest with
    | Option.none => Option.none
    | some rest' =>
      let tok := rest'.takeWhile scoreChar
      if tok = [] then Option.none else some (String.mk tok)

/-- Leftmost match of the `overall_score` pattern (`re.search` semantics):
scan start positions left to right. -/
def searchScoreAux : List Char → Option String
  | [] => Option.none
  | cs@(_ :: rest) =>
    match matchScoreAt cs with
    | some tok => some tok
    | Option.none => searchScoreAux rest

/-- The `re.search` for the score pattern, returning the captured group
(`main.py` line 192). -/
def searchScore (raw : String) : Option String :=
  searchScoreAux raw.data

/-- Try to match the `validation_passed` pattern (case-insensitively) at the
head of `cs`, returning the captured `true|false` alternative. -/
def matchPassedAt (cs : List Char) : Option Bool :=
  match stripLitCI "validation_passed".data cs with
  | Option.none => Option.none
  | some rest =>
    match matchColon rest with
    | Option.none => Option.none
    | some rest' =>
      match stripLitCI "true".data rest' with
      | some _ => some true
      | Option.none =>
        match stripLitCI "false".data rest' with
        | some _ => some false
        | Option.none => Option.none

/-- Leftmost match of the `validation_passed` pattern. -/
def searchPassedAux : List Char → Option Bool
  | [] => Option.none
  | cs@(_ :: rest) =>
    match matchPassedAt cs with
    | some b => some b
    | Option.none => searchPassedAux rest

/-- The case-insensitive `re.search` for the passed pattern, with
`passed_match.group(1).lower() == "true"` already applied (`main.py`
lines 193 and 198). -/
def searchPassed (raw : String) : Option Bool :=
  searchPassedAux raw.data

/-- Python `float()` applied to a captured `[0-9.]+` group (`main.py` line 196):
the token is digits and dots only, so it is a valid float literal exactly when
it holds at least one digit and at most one dot; `float(".")`, `float("1.2.3")`
raise `ValueError`. -/
def pyFloatOfToken (tok : String) : Option Dec :=
  let cs := tok.data
  if cs.any Char.isDigit ∧ cs.count '.' ≤ 1 then
    let ip := cs.takeWhile Char.isDigit
    let rest := cs.dropWhile Char.isDigit
    let fp := match rest with
      | '.' :: ds => ds
      | _ => []
    some ⟨(digitsToNat ip * 10 ^ fp.length + digitsToNat fp : Nat), fp.length⟩
  else Option.none

example : searchScore "overall_score: 0.65, validation_passed: false" = some "0.65" := by decide
example : searchPassed "overall_score: 0.65, validation_passed: false" = some false := by decide
example : searchPassed "VALIDATION_PASSED : True" = some true := by decide
example : searchScore "no score here" = Option.none := by decide
example : pyFloatOfToken "0.65" = some ⟨65, 2⟩ := by decide
example : pyFloatOfToken "1.2.3" = Option.none := by decide
example : pyFloatOfToken "." = Option.none := by decide

/-! ## Run state and the validation parse (`main.py`)

`SecurityRequirementsState` (lines 27-47) and the score/pass extraction of
`validate_requirements` (lines 182-201). -/

/-- `SecurityRequirementsState` (`main.py` lines 27-47).  The `input_file`
path is part of the load oracle below; `validation_score` is a decimal (see
`Dec`); `iteration_count` is a Python int that is only ever incremented, kept
as `Nat`. -/
structure FlowState where
  requirements_text : String := ""
  analyzed_requirements : String := ""
  security_controls : String := ""
  ai_security : String := ""
  compliance_requirements : String := ""
  validation_report : String := ""
  validation_passed : Bool := false
  validation_score : Dec := ⟨0, 1⟩
  iteration_count : Nat := 0
  final_requirements : String := ""
deriving DecidableEq, Repr

/-- `SecurityRequirementsFlow.MAX_ITERATIONS` (`main.py` line 63). -/
def MAX_ITERATIONS : Nat := 3

/-- `SecurityRequirementsFlow.VALIDATION_THRESHOLD = 0.8` (`main.py` line 64). -/
def VALIDATION_THRESHOLD : Dec := ⟨8, 1⟩

/-- The ways the parse block of `validate_requirements` can raise past the
`except json.JSONDecodeError` handler (`main.py` lines 183-201):
* `attributeError`: `json.loads` succeeded but returned a non-dict, so
  `validation_data.get` raises `AttributeError`;
* `scoreTypeFault` / `passedTypeFault`: the field value does not fit the typed
  pydantic state field (modelled as accepting exactly a JSON number for
  `validation_score` and exactly a JSON boolean for `validation_passed`;
  pydantic's lax coercions of other shapes are not modelled and no claim
  exercises them);
* `floatValueError`: `float()` on the captured score token raises
  `ValueError` (token such as `"."` or `"1.2.3"`). -/
inductive ParseFault where
  | attributeError : ParseFault
  | scoreTypeFault : ParseFault
  | passedTypeFault : ParseFault
  | floatValueError : ParseFault
deriving DecidableEq, Repr

deriving instance DecidableEq for Except

/-- Pydantic assignment to the `float` field `validation_score`. -/
def coerceFloat : Json → Option Dec
  | Json.num q => some q
  | _ => Option.none

/-- Pydantic assignment to the `bool` field `validation_passed`. -/
def coerceBool : Json → Option Bool
  | Json.bool b => some b
  | _ => Option.none

/-- The score/passed extraction of `validate_requirements` (`main.py` lines
183-201) as a function of the raw validation text and the previous score:
tier 1 parses the text as JSON and reads `overall_score` (default `0.0`) and
`validation_passed` (default `False`) from the dict; on `JSONDecodeError`,
tier 2 pattern-extracts the score (retaining the previous score when the
pattern is absent) and the passed flag; tier 3 derives the flag from the
threshold when no flag pattern matched.  The score assignment precedes the
flag assignment in the source, so the tier-3 comparison uses the freshly
extracted (or retained) score. -/
def parseScorePassed (raw : String) (prevScore : Dec) : Except ParseFault (Dec × Bool) :=
  match Json.loads raw with
  | some (Json.obj kvs) =>
    (match coerceFloat ((jsonLookupLast kvs "overall_score").getD (Json.num ⟨0, 1⟩)) with
     | Option.none => Except.error ParseFault.scoreTypeFault
     | some q =>
       match coerceBool ((jsonLookupLast kvs "validation_passed").getD (Json.bool false)) with
       | Option.none => Except.error ParseFault.passedTypeFault
       | some b => Except.ok (q, b))
  | some _ => Except.error ParseFault.attributeError
  | Option.none =>
    match searchScore raw with
    | some tok =>
      (match pyFloatOfToken tok with
       | some q => Except.ok (q, (searchPassed raw).getD (decide (Dec.le VALIDATION_THRESHOLD q)))
       | Option.none => Except.error ParseFault.floatValueError)
    | Option.none =>
      Except.ok (prevScore, (searchPassed raw).getD (decide (Dec.le VALIDATION_THRESHOLD prevScore)))

/-- The state update of `validate_requirements` after the validation crew
returned `raw` (`main.py` lines 180-201): the report is stored first, then the
parse block runs; a `ParseFault` propagates out of the method (aborting the
run), so the faulted state is never observed. -/
def applyValidation (raw : String) (st : FlowState) : Except ParseFault FlowState :=
  let st1 := { st with validation_report := raw }
  match parseScorePassed raw st1.validation_score with
  | Except.ok p => Except.ok { st1 with validation_score := p.1, validation_passed := p.2 }
  | Except.error e => Except.error e

example :
    parseScorePassed "\x7b\"overall_score\":0.92,\"validation_passed\":true\x7d" ⟨0, 1⟩ =
      Except.ok (⟨92, 2⟩, true) := by decide
example :
    parseScorePassed "overall_score: 0.65 and validation_passed: false" ⟨0, 1⟩ =
      Except.ok (⟨65, 2⟩, false) := by decide
example :
    parseScorePassed "overall_score: 0.9" ⟨0, 1⟩ = Except.ok (⟨9, 1⟩, true) := by decide
example :
    parseScorePassed "null" ⟨0, 1⟩ = Except.error ParseFault.attributeError := by decide
example :
    parseScorePassed "\x7b\"overall_score\":0.95\x7d" ⟨0, 1⟩ =
      Except.ok (⟨95, 2⟩, false) := by decide

/-! ## The pipeline state machine (`main.py` lines 50-275)

States of §4.1 of the design: the `@start`/`@listen` chain of
`SecurityRequirementsFlow`, with the loop edge of `evaluate_and_decide`.
The five crews and the input file are oracle parameters; each crew call is the
`kickoff(...).raw` text for the given inputs. -/

/-- The controller states
`LOADING → ANALYZING → MAPPING_CONTROLS → MAPPING_AI_SECURITY →
MAPPING_COMPLIANCE → VALIDATING → DECIDING → {ANALYZING | FINALIZING} → DONE`. -/
inductive FlowLabel where
  | LOADING : FlowLabel
  | ANALYZING : FlowLabel
  | MAPPING_CONTROLS : FlowLabel
  | MAPPING_AI_SECURITY : FlowLabel
  | MAPPING_COMPLIANCE : FlowLabel
  | VALIDATING : FlowLabel
  | DECIDING : FlowLabel
  | FINALIZING : FlowLabel
  | DONE : FlowLabel
deriving DecidableEq, Repr

/-- External collaborators of one run: the content of the input file
(`none` models both an unset `input_file` and a missing file, the two fatal
`load_requirements` faults), and the five crews as text-in/text-out services
(`kickoff(inputs=...).raw`), each applied to exactly the state fields the
source passes (`main.py` lines 100, 112, 124-133, 145-154, 166-178). -/
structure Oracles where
  inputFile : Option String
  analysisCrew : String → String
  domainCrew : String → String
  llmCrew : String → String → String
  complianceCrew : String → String → String
  validationCrew : String → String → String → String → String → String

/-- Faults that abort a run: the two fatal load errors (collapsed), and a
`ParseFault` escaping `validate_requirements`. -/
inductive RunError where
  | loadFault : RunError
  | parseFault (e : ParseFault) : RunError
deriving DecidableEq, Repr

/-- The analysis context built by `analyze_requirements` (`main.py` lines
95-98): the original requirements text, plus the previous validation report
appended as feedback when a report exists (Python truthiness: non-empty) and
validation has not passed. -/
def analyzeContext (st : FlowState) : String :=
  if st.validation_report ≠ "" ∧ st.validation_passed = false then
    st.requirements_text ++ "\n\nPREVIOUS VALIDATION FEEDBACK:\n" ++ st.validation_report
  else st.requirements_text

/-- The final document assembled by `generate_final_output` (`main.py` lines
244-258).  The exact `json.dumps(..., indent=2)` rendering (and the derived
markdown file) are presentation only — no claim depends on them — so the
document is modelled as the concatenation of its parts in source order. -/
def renderFinal (st : FlowState) : String :=
  "validation_score:" ++ toString st.validation_score.mant ++ "e-" ++
    toString st.validation_score.scale ++
  ";validation_passed:" ++ toString st.validation_passed ++
  ";iterations:" ++ toString st.iteration_count ++
  ";original_requirements:" ++ st.requirements_text ++
  ";requirements_analysis:" ++ st.analyzed_requirements ++
  ";security_controls:" ++ st.security_controls ++
  ";ai_ml_security:" ++ st.ai_security ++
  ";compliance_requirements:" ++ st.compliance_requirements ++
  ";validation_report:" ++ st.validation_report

/-- One transition of the controller.  Each stage state invokes its oracle on
the input fields the source passes and writes exactly one output field;
`VALIDATING` additionally runs the three-tier parse (`applyValidation`);
`DECIDING` is `evaluate_and_decide` (`main.py` lines 207-235): increment the
iteration counter first, then branch on `(validation_passed, iteration_count)`. -/
def step (o : Oracles) : FlowLabel × FlowState → Except RunError (FlowLabel × FlowState)
  | (FlowLabel.LOADING, st) =>
    (match o.inputFile with
     | Option.none => Except.error RunError.loadFault
     | some txt => Except.ok (FlowLabel.ANALYZING, { st with requirements_text := txt }))
  | (FlowLabel.ANALYZING, st) =>
    Except.ok (FlowLabel.MAPPING_CONTROLS,
      { st with analyzed_requirements := o.analysisCrew (analyzeContext st) })
  | (FlowLabel.MAPPING_CONTROLS, st) =>
    Except.ok (FlowLabel.MAPPING_AI_SECURITY,
      { st with security_controls := o.domainCrew st.analyzed_requirements })
  | (FlowLabel.MAPPING_AI_SECURITY, st) =>
    Except.ok (FlowLabel.MAPPING_COMPLIANCE,
      { st with ai_security := o.llmCrew st.requirements_text st.analyzed_requirements })
  | (FlowLabel.MAPPING_COMPLIANCE, st) =>
    Except.ok (FlowLabel.VALIDATING,
      { st with compliance_requirements :=
          o.complianceCrew st.requirements_text st.analyzed_requirements })
  | (FlowLabel.VALIDATING, st) =>
    (match applyValidation
        (o.validationCrew st.requirements_text st.analyzed_requirements
          st.security_controls st.ai_security st.compliance_requirements) st with
     | Except.ok st' => Except.ok (FlowLabel.DECIDING, st')
     | Except.error e => Except.error (RunError.parseFault e))
  | (FlowLabel.DECIDING, st) =>
    let st' := { st with iteration_count := st.iteration_count + 1 }
    if st'.validation_passed then Except.ok (FlowLabel.FINALIZING, st')
    else if st'.iteration_count < MAX_ITERATIONS then Except.ok (FlowLabel.ANALYZING, st')
    else Except.ok (FlowLabel.FINALIZING, st')
  | (FlowLabel.FINALIZING, st) =>
    Except.ok (FlowLabel.DONE, { st with final_requirements := renderFinal st })
  | (FlowLabel.DONE, st) => Except.ok (FlowLabel.DONE, st)

/-- Run the controller for at most `fuel` transitions (the loop bound makes 32
ample; see `runFlow_completes`).  Stops at `DONE` or on a fault. -/
def runFlow (o : Oracles) : Nat → FlowLabel × FlowState → Except RunError (FlowLabel × FlowState)
  | 0, cfg => Except.ok cfg
  | Nat.succ fuel, cfg =>
    if cfg.1 = FlowLabel.DONE then Except.ok cfg
    else
      match step o cfg with
      | Except.ok cfg' => runFlow o fuel cfg'
      | Except.error e => Except.error e

/-- The fixed successor of each non-`DECIDING` state (on success): the chain
has no other branch point. -/
def plainNext : FlowLabel → FlowLabel
  | FlowLabel.LOADING => FlowLabel.ANALYZING
  | FlowLabel.ANALYZING => FlowLabel.MAPPING_CONTROLS
  | FlowLabel.MAPPING_CONTROLS => FlowLabel.MAPPING_AI_SECURITY
  | FlowLabel.MAPPING_AI_SECURITY => FlowLabel.MAPPING_COMPLIANCE
  | FlowLabel.MAPPING_COMPLIANCE => FlowLabel.VALIDATING
  | FlowLabel.VALIDATING => FlowLabel.DECIDING
  | FlowLabel.DECIDING => FlowLabel.DECIDING
  | FlowLabel.FINALIZING => FlowLabel.DONE
  | FlowLabel.DONE => FlowLabel.DONE

/-- The `DECIDING` target as the spec describes it: a pure function of the
passed flag and the pre-increment iteration counter. -/
def decidingTarget (passed : Bool) (k : Nat) : FlowLabel :=
  if passed then FlowLabel.FINALIZING
  else if k + 1 < MAX_ITERATIONS then FlowLabel.ANALYZING
  else FlowLabel.FINALIZING

/-! ## Invariant and termination infrastructure for the controller -/

/-- Remaining stages in the current pass, for the termination measure. -/
def rank : FlowLabel → Nat
  | FlowLabel.LOADING => 8
  | FlowLabel.ANALYZING => 7
  | FlowLabel.MAPPING_CONTROLS => 6
  | FlowLabel.MAPPING_AI_SECURITY => 5
  | FlowLabel.MAPPING_COMPLIANCE => 4
  | FlowLabel.VALIDATING => 3
  | FlowLabel.DECIDING => 2
  | FlowLabel.FINALIZING => 1
  | FlowLabel.DONE => 0

/-- Run invariant: the counter never exceeds the iteration cap, is still below
it strictly while another pass may start, and is positive once the run is
finalizing. -/
def invB (cfg : FlowLabel × FlowState) : Bool :=
  decide (cfg.2.iteration_count ≤ MAX_ITERATIONS) &&
    (match cfg.1 with
     | FlowLabel.FINALIZING => decide (1 ≤ cfg.2.iteration_count)
     | FlowLabel.DONE => decide (1 ≤ cfg.2.iteration_count)
     | _ => decide (cfg.2.iteration_count ≤ MAX_ITERATIONS - 1))

/-- Termination measure: passes left times stages per pass, plus the stages
left in this pass. -/
def fmeasure (cfg : FlowLabel × FlowState) : Nat :=
  7 * (MAX_ITERATIONS - cfg.2.iteration_count) + rank cfg.1

/-- Has the run ended (normally or on a fault)? -/
def isDoneOrError : Except RunError (FlowLabel × FlowState) → Bool
  | Except.error _ => true
  | Except.ok cfg => decide (cfg.1 = FlowLabel.DONE)

theorem applyValidation_count (raw : String) (st st' : FlowState)
    (h : applyValidation raw st = Except.ok st') :
    st'.iteration_count = st.iteration_count := by
  simp only [applyValidation] at h
  cases hp : parseScorePassed raw st.validation_score with
  | ok p => rw [hp] at h; cases h; rfl
  | error e => rw [hp] at h; cases h

theorem applyValidation_requirements (raw : String) (st st' : FlowState)
    (h : applyValidation raw st = Except.ok st') :
    st'.requirements_text = st.requirements_text := by
  simp only [applyValidation] at h
  cases hp : parseScorePassed raw st.validation_score with
  | ok p => rw [hp] at h; cases h; rfl
  | error e => rw [hp] at h; cases h

theorem step_count_mono (o : Oracles) (cfg cfg' : FlowLabel × FlowState)
    (h : step o cfg = Except.ok cfg') :
    cfg.2.iteration_count ≤ cfg'.2.iteration_count := by
  obtain ⟨l, st⟩ := cfg
  cases l <;> simp only [step] at h
  · split at h
    · cases h
    · cases h; simp
  · cases h; simp
  · cases h; simp
  · cases h; simp
  · cases h; simp
  · split at h
    · rename_i st' hv
      cases h
      simp [applyValidation_count _ _ _ hv]
    · cases h
  · split at h
    · cases h; simp only []; omega
    · split at h <;> (cases h; simp only []; omega)
  · cases h; simp
  · cases h; simp

theorem step_count_frame (o : Oracles) (cfg cfg' : FlowLabel × FlowState)
    (h : step o cfg = Except.ok cfg') (hnd : cfg.1 ≠ FlowLabel.DECIDING) :
    cfg'.2.iteration_count = cfg.2.iteration_count := by
  obtain ⟨l, st⟩ := cfg
  cases l <;> simp only [step] at h <;> simp only [] at hnd
  · split at h
    · cases h
    · cases h; simp
  · cases h; simp
  · cases h; simp
  · cases h; simp
  · cases h; simp
  · split at h
    · rename_i st' hv
      cases h
      simp [applyValidation_count _ _ _ hv]
    · cases h
  · exact absurd rfl hnd
  · cases h; simp
  · cases h; simp

theorem step_invB (o : Oracles) (cfg cfg' : FlowLabel × FlowState)
    (hinv : invB cfg = true) (h : step o cfg = Except.ok cfg') :
    invB cfg' = true := by
  obtain ⟨l, st⟩ := cfg
  cases l <;> simp only [step] at h
  · split at h
    · cases h
    · cases h; simpa [invB] using hinv
  · cases h; simpa [invB] using hinv
  · cases h; simpa [invB] using hinv
  · cases h; simpa [invB] using hinv
  · cases h; simpa [invB] using hinv
  · split at h
    · rename_i st' hv
      cases h
      simp only [invB, MAX_ITERATIONS, Bool.and_eq_true, decide_eq_true_eq] at hinv ⊢
      rw [applyValidation_count _ _ _ hv]
      exact hinv
    · cases h
  · simp only [invB, MAX_ITERATIONS, Bool.and_eq_true, decide_eq_true_eq] at hinv
    split at h
    · cases h
      simp only [invB, MAX_ITERATIONS, Bool.and_eq_true, decide_eq_true_eq]
      omega
    · rename_i hp
      split at h <;> rename_i hlt <;> cases h <;>
        simp only [MAX_ITERATIONS] at hlt <;>
        (simp only [invB, MAX_ITERATIONS, Bool.and_eq_true, decide_eq_true_eq]; omega)
  · cases h; simpa [invB, MAX_ITERATIONS] using hinv
  · cases h; simpa [invB, MAX_ITERATIONS] using hinv

theorem step_fmeasure (o : Oracles) (cfg cfg' : FlowLabel × FlowState)
    (hinv : invB cfg = true) (hnd : cfg.1 ≠ FlowLabel.DONE)
    (h : step o cfg = Except.ok cfg') :
    fmeasure cfg' < fmeasure cfg := by
  obtain ⟨l, st⟩ := cfg
  cases l <;> simp only [step] at h
  · split at h
    · cases h
    · cases h; simp [fmeasure, rank]
  · cases h; simp [fmeasure, rank]
  · cases h; simp [fmeasure, rank]
  · cases h; simp [fmeasure, rank]
  · cases h; simp [fmeasure, rank]
  · split at h
    · rename_i st' hv
      cases h
      simp [fmeasure, rank, applyValidation_count _ _ _ hv]
    · cases h
  · simp only [invB, MAX_ITERATIONS, Bool.and_eq_true, decide_eq_true_eq] at hinv
    split at h
    · cases h
      simp only [fmeasure, rank, MAX_ITERATIONS]
      omega
    · rename_i hp
      split at h <;> rename_i hlt <;> cases h <;>
        simp only [MAX_ITERATIONS] at hlt <;>
        (simp only [fmeasure, rank, MAX_ITERATIONS]; omega)
  · cases h; simp [fmeasure, rank]
  · exact absurd rfl hnd

theorem runFlow_ok_invB (o : Oracles) :
    ∀ (n : Nat) (cfg cfg' : FlowLabel × FlowState), invB cfg = true →
      runFlow o n cfg = Except.ok cfg' → invB cfg' = true := by
  intro n
  induction n with
  | zero => intro cfg cfg' hinv h; cases h; exact hinv
  | succ n ih =>
    intro cfg cfg' hinv h
    unfold runFlow at h
    split at h
    · cases h; exact hinv
    · cases hs : step o cfg with
      | ok c => rw [hs] at h; exact ih c cfg' (step_invB o cfg c hinv hs) h
      | error e => rw [hs] at h; cases h

theorem runFlow_completes (o : Oracles) :
    ∀ (n : Nat) (cfg : FlowLabel × FlowState), invB cfg = true →
      fmeasure cfg ≤ n → isDoneOrError (runFlow o n cfg) = true := by
  intro n
  induction n with
  | zero =>
    intro cfg hinv hm
    have hrank : rank cfg.1 = 0 := by
      simp only [fmeasure] at hm; omega
    have hdone : cfg.1 = FlowLabel.DONE := by
      cases h : cfg.1 <;> rw [h] at hrank <;> first | rfl | simp [rank] at hrank
    simp [runFlow, isDoneOrError, hdone]
  | succ n ih =>
    intro cfg hinv hm
    unfold runFlow
    split
    · rename_i hdone; simp [isDoneOrError, hdone]
    · rename_i hnd
      cases hs : step o cfg with
      | ok c =>
        have hlt := step_fmeasure o cfg c hinv hnd hs
        exact ih c (step_invB o cfg c hinv hs) (by omega)
      | error e => simp [isDoneOrError]

/-! ## Claim theorems for the controller -/

/-- Every non-`DECIDING` state has a fixed successor label on success. -/
theorem step_plainNext (o : Oracles) (cfg cfg' : FlowLabel × FlowState)
    (h : step o cfg = Except.ok cfg') (hnd : cfg.1 ≠ FlowLabel.DECIDING) :
    cfg'.1 = plainNext cfg.1 := by
  obtain ⟨l, st⟩ := cfg
  cases l <;> simp only [step] at h
  · split at h
    · cases h
    · cases h; rfl
  · cases h; rfl
  · cases h; rfl
  · cases h; rfl
  · cases h; rfl
  · split at h
    · cases h; rfl
    · cases h
  · exact absurd rfl hnd
  · cases h; rfl
  · cases h; rfl

/-- Bound check on a run result: the counter is within the cap, and positive
once the run is `DONE`. -/
def countOk : Except RunError (FlowLabel × FlowState) → Bool
  | Except.error _ => true
  | Except.ok cfg =>
    decide (cfg.2.iteration_count ≤ MAX_ITERATIONS) &&
      (!(decide (cfg.1 = FlowLabel.DONE)) || decide (1 ≤ cfg.2.iteration_count))

theorem invB_countOk (cfg : FlowLabel × FlowState) (h : invB cfg = true) :
    countOk (Except.ok cfg) = true := by
  obtain ⟨l, st⟩ := cfg
  cases l <;>
    simp only [invB, MAX_ITERATIONS, Bool.and_eq_true, decide_eq_true_eq] at h <;>
    simp [countOk, MAX_ITERATIONS] <;> omega

/-- C2: the `DECIDING` step (`evaluate_and_decide`, `main.py` lines 207-235)
first increments the iteration counter, then moves to the label
`decidingTarget validation_passed old_count` — `FINALIZING` when validation
passed, else `ANALYZING` while the incremented counter is below the fixed
maximum of 3, else `FINALIZING` — and this is the only branch point: every
other state has a fixed successor label (`plainNext`) on success. -/
theorem C2_deciding_branch (o : Oracles) (st : FlowState)
    (cfg cfg' : FlowLabel × FlowState)
    (hstep : step o cfg = Except.ok cfg') (hnd : cfg.1 ≠ FlowLabel.DECIDING) :
    step o (FlowLabel.DECIDING, st) =
      Except.ok (decidingTarget st.validation_passed st.iteration_count,
        { st with iteration_count := st.iteration_count + 1 })
    ∧ cfg'.1 = plainNext cfg.1 := by
  refine ⟨?_, step_plainNext o cfg cfg' hstep hnd⟩
  cases hp : st.validation_passed <;>
    by_cases hlt : st.iteration_count + 1 < MAX_ITERATIONS <;>
    simp [step, decidingTarget, hp, hlt]

/-- A terminal state whose passed flag is set, for concrete instantiations. -/
def stPassed : FlowState := { validation_passed := true }

/-- Constant-output oracles, for concrete instantiations: the input file
holds `"REQ"`, the four mapping crews return fixed strings, and the
validation crew returns the empty string (whose parse yields score 0.0,
passed false). -/
def oW : Oracles :=
  ⟨some "REQ", fun _ => "A", fun _ => "B", fun _ _ => "C", fun _ _ => "D",
    fun _ _ _ _ _ => ""⟩

/-- Witness for C2 at a concrete passed state and a concrete non-`DECIDING`
configuration. -/
theorem C2_deciding_branch_witness :
    step oW (FlowLabel.DECIDING, stPassed) =
      Except.ok (decidingTarget stPassed.validation_passed stPassed.iteration_count,
        { stPassed with iteration_count := stPassed.iteration_count + 1 })
    ∧ FlowLabel.DONE = plainNext FlowLabel.DONE :=
  C2_deciding_branch oW stPassed (FlowLabel.DONE, stPassed) (FlowLabel.DONE, stPassed)
    rfl (by decide)

/-- C3: within a run the iteration counter never decreases (and is changed
only by the `DECIDING` step); a run started at counter 0 always keeps the
counter within `[0, 3]` and has it in `[1, 3]` whenever it reaches `DONE`;
and with ample fuel every run either faults or reaches `DONE` — in
particular, when the counter reaches the cap without validation passing, the
`DECIDING` step still moves to `FINALIZING` rather than looping or
aborting. -/
theorem C3_iteration_counter_bounds (o : Oracles) (st0 stx : FlowState) (n : Nat)
    (cfg cfg' : FlowLabel × FlowState)
    (h0 : st0.iteration_count = 0)
    (hstep : step o cfg = Except.ok cfg') :
    cfg.2.iteration_count ≤ cfg'.2.iteration_count
    ∧ (cfg.1 ≠ FlowLabel.DECIDING → cfg'.2.iteration_count = cfg.2.iteration_count)
    ∧ countOk (runFlow o n (FlowLabel.LOADING, st0)) = true
    ∧ isDoneOrError (runFlow o 32 (FlowLabel.LOADING, st0)) = true
    ∧ (stx.validation_passed = false → MAX_ITERATIONS ≤ stx.iteration_count + 1 →
        step o (FlowLabel.DECIDING, stx) =
          Except.ok (FlowLabel.FINALIZING,
            { stx with iteration_count := stx.iteration_count + 1 })) := by
  have hinv0 : invB (FlowLabel.LOADING, st0) = true := by
    simp [invB, MAX_ITERATIONS, h0]
  refine ⟨step_count_mono o cfg cfg' hstep,
    fun hnd => step_count_frame o cfg cfg' hstep hnd, ?_, ?_, ?_⟩
  · cases hr : runFlow o n (FlowLabel.LOADING, st0) with
    | ok c => exact invB_countOk c (runFlow_ok_invB o n _ c hinv0 hr)
    | error e => rfl
  · exact runFlow_completes o 32 (FlowLabel.LOADING, st0) hinv0
      (by simp [fmeasure, rank, MAX_ITERATIONS, h0])
  · intro hp hmax
    simp [step, hp, Nat.not_lt.mpr hmax]

/-- Witness for C3: constant oracles whose validation never passes; the run
completes at `DONE` with counter 3. -/
theorem C3_iteration_counter_bounds_witness :
    stPassed.iteration_count ≤ stPassed.iteration_count
    ∧ (FlowLabel.DONE ≠ FlowLabel.DECIDING →
        stPassed.iteration_count = stPassed.iteration_count)
    ∧ countOk (runFlow oW 40 (FlowLabel.LOADING, ({} : FlowState))) = true
    ∧ isDoneOrError (runFlow oW 32 (FlowLabel.LOADING, ({} : FlowState))) = true
    ∧ (stPassed.validation_passed = false → MAX_ITERATIONS ≤ stPassed.iteration_count + 1 →
        step oW (FlowLabel.DECIDING, stPassed) =
          Except.ok (FlowLabel.FINALIZING,
            { stPassed with iteration_count := stPassed.iteration_count + 1 })) :=
  C3_iteration_counter_bounds oW ({} : FlowState) stPassed 40
    (FlowLabel.DONE, stPassed) (FlowLabel.DONE, stPassed) rfl rfl

/-- C6: whenever the loop edge is taken (`DECIDING → ANALYZING`), validation
had not passed, and the context handed to the analysis crew on that re-entry
(`analyzeContext`, from `analyze_requirements`, `main.py` lines 95-100) starts
with the original requirements text and contains the previous validation
report text (content inclusion); on a first entry — no validation report yet —
the context is exactly the original requirements text. -/
theorem C6_loop_feedback_context (o : Oracles) (st st' stF : FlowState) (l' : FlowLabel)
    (hstep : step o (FlowLabel.DECIDING, st) = Except.ok (l', st'))
    (hloop : l' = FlowLabel.ANALYZING) :
    st'.validation_passed = false
    ∧ st'.requirements_text.data <+: (analyzeContext st').data
    ∧ st'.validation_report.data <:+: (analyzeContext st').data
    ∧ (stF.validation_report = "" → analyzeContext stF = stF.requirements_text) := by
  subst hloop
  have hpassed : st'.validation_passed = false := by
    simp only [step] at hstep
    cases hp : st.validation_passed <;> rw [hp] at hstep
    · simp only [if_false, Bool.false_eq_true] at hstep
      split at hstep
      · cases hstep; rfl
      · cases hstep
    · simp only [if_true] at hstep; cases hstep
  refine ⟨hpassed, ?_, ?_, ?_⟩
  · by_cases hrep : st'.validation_report = ""
    · simp [analyzeContext, hrep]
    · simp only [analyzeContext, hrep, hpassed, ne_eq, not_false_eq_true, and_self, if_true]
      rw [String.data_append, String.data_append]
      exact (List.prefix_append _ _).trans (List.prefix_append _ _)
  · by_cases hrep : st'.validation_report = ""
    · simp [analyzeContext, hrep, List.nil_infix]
    · simp only [analyzeContext, hrep, hpassed, ne_eq, not_false_eq_true, and_self, if_true]
      rw [String.data_append, String.data_append]
      exact ⟨st'.requirements_text.data ++ "\n\nPREVIOUS VALIDATION FEEDBACK:\n".data, [],
        by simp⟩
  · intro h
    simp [analyzeContext, h]

/-- A failed-validation state with a non-empty report, for the C6 witness. -/
def stFailed : FlowState :=
  { requirements_text := "REQ", validation_report := "needs work",
    validation_passed := false }

/-- Witness for C6: a concrete loop edge out of a failed validation. -/
theorem C6_loop_feedback_context_witness :
    ({ stFailed with iteration_count := 1 } : FlowState).validation_passed = false
    ∧ ({ stFailed with iteration_count := 1 } : FlowState).requirements_text.data <+:
        (analyzeContext { stFailed with iteration_count := 1 }).data
    ∧ ({ stFailed with iteration_count := 1 } : FlowState).validation_report.data <:+:
        (analyzeContext { stFailed with iteration_count := 1 }).data
    ∧ (({} : FlowState).validation_report = "" →
        analyzeContext ({} : FlowState) = ({} : FlowState).requirements_text) :=
  C6_loop_feedback_context oW stFailed { stFailed with iteration_count := 1 }
    ({} : FlowState) FlowLabel.ANALYZING rfl rfl

/-- C1: the three reference cases of the three-tier validation parse
(`main.py` lines 182-201).  Structured JSON
`{"overall_score":0.92,"validation_passed":true}` yields score 0.92 and
passed; unstructured text containing `overall_score: 0.65` and
`validation_passed: false` yields 0.65 and not passed; text with only
`overall_score: 0.9` yields 0.9 with the passed flag derived from the 0.8
threshold, `(0.9 ≥ 0.8) = true`.  (Independent of the pre-existing score.) -/
theorem C1_three_tier_reference_cases (prev : Dec) :
    (parseScorePassed "\x7b\"overall_score\":0.92,\"validation_passed\":true\x7d" prev).map
        (fun p => (p.1.toRat, p.2)) = Except.ok ((92 : Rat) / 100, true)
    ∧ (parseScorePassed
          "The result is insufficient. overall_score: 0.65, validation_passed: false" prev).map
        (fun p => (p.1.toRat, p.2)) = Except.ok ((65 : Rat) / 100, false)
    ∧ (parseScorePassed "Validation summary with overall_score: 0.9 only" prev).map
        (fun p => (p.1.toRat, p.2)) = Except.ok ((9 : Rat) / 10, true)
    ∧ ((9 : Rat) / 10 ≥ (8 : Rat) / 10) := by
  refine ⟨?_, ?_, ?_, by norm_num⟩
  · rw [show parseScorePassed "\x7b\"overall_score\":0.92,\"validation_passed\":true\x7d" prev =
        Except.ok (⟨92, 2⟩, true) from rfl]
    norm_num [Except.map, Dec.toRat]
  · rw [show parseScorePassed
          "The result is insufficient. overall_score: 0.65, validation_passed: false" prev =
        Except.ok (⟨65, 2⟩, false) from rfl]
    norm_num [Except.map, Dec.toRat]
  · rw [show parseScorePassed "Validation summary with overall_score: 0.9 only" prev =
        Except.ok (⟨9, 1⟩, true) from rfl]
    norm_num [Except.map, Dec.toRat]

/-- Tier-2/3 characterization: when the JSON parse fails, the extraction
tier runs. -/
theorem parseScorePassed_tier2 (raw : String) (prev : Dec)
    (hj : Json.loads raw = Option.none) :
    parseScorePassed raw prev =
      (match searchScore raw with
       | some tok =>
         (match pyFloatOfToken tok with
          | some q =>
            Except.ok (q, (searchPassed raw).getD (decide (Dec.le VALIDATION_THRESHOLD q)))
          | Option.none => Except.error ParseFault.floatValueError)
       | Option.none =>
         Except.ok (prev, (searchPassed raw).getD (decide (Dec.le VALIDATION_THRESHOLD prev)))) := by
  unfold parseScorePassed
  rw [hj]

/-- C4 counterexample: a successfully parsed structured JSON record that
lacks the `validation_passed` field does NOT get threshold synthesis — the
dict `.get("validation_passed", False)` default makes the run state's flag
`False` even though the recovered score 0.95 clears the 0.8 threshold
(`main.py` line 187). -/
theorem C4_cex_json_tier_defaults_to_false :
    (parseScorePassed "\x7b\"overall_score\":0.95\x7d" ⟨0, 1⟩).map
        (fun p => (p.1.toRat, p.2)) = Except.ok ((95 : Rat) / 100, false)
    ∧ ((95 : Rat) / 100 ≥ (8 : Rat) / 10) := by
  constructor
  · rw [show parseScorePassed "\x7b\"overall_score\":0.95\x7d" ⟨0, 1⟩ =
        Except.ok (⟨95, 2⟩, false) from rfl]
    norm_num [Except.map, Dec.toRat]
  · norm_num

/-- C4 (amended): only in the pattern-extraction tier — when the JSON parse
fails — is an absent passed-flag synthesized from the threshold: if neither
tier recovers a flag pattern, the resulting flag equals
`(resulting score ≥ 0.8)`, the resulting score being the freshly extracted
or retained value (`main.py` lines 199-201).  In the JSON tier a missing
`validation_passed` key instead defaults to `False`. -/
theorem C4_threshold_synthesis_in_extraction_tier (raw : String) (prev q : Dec) (b : Bool)
    (hjson : (Json.loads raw).isNone = true)
    (hpm : searchPassed raw = Option.none)
    (hok : parseScorePassed raw prev = Except.ok (q, b)) :
    b = decide (Dec.le VALIDATION_THRESHOLD q) := by
  cases hj : Json.loads raw with
  | some j => rw [hj] at hjson; simp at hjson
  | none =>
    rw [parseScorePassed_tier2 raw prev hj] at hok
    cases hsc : searchScore raw with
    | some tok =>
      simp only [hsc] at hok
      cases hf : pyFloatOfToken tok with
      | some q' =>
        simp only [hf, hpm, Option.getD] at hok
        cases hok
        rfl
      | none => simp only [hf] at hok; cases hok
    | none =>
      simp only [hsc, hpm, Option.getD] at hok
      cases hok
      rfl

/-- Witness for C4 (amended), at the threshold-derivation reference input. -/
theorem C4_threshold_synthesis_witness :
    true = decide (Dec.le VALIDATION_THRESHOLD ⟨9, 1⟩) :=
  C4_threshold_synthesis_in_extraction_tier "overall_score: 0.9" ⟨0, 1⟩ ⟨9, 1⟩ true
    (by decide) (by decide) (by decide)

/-- C5 counterexample: the raw validation text `"null"` is valid JSON but not
an object, so `validation_data.get` raises `AttributeError`, which the
`except json.JSONDecodeError` handler does not catch — the parse step aborts
the run (`main.py` lines 183-188). -/
theorem C5_cex_valid_json_non_object_raises :
    applyValidation "null" ({} : FlowState) = Except.error ParseFault.attributeError := by
  decide

/-- C5 (amended): the three-tier fallback terminates without raising for
every raw text whose JSON parse fails, provided any extracted score token is
a valid float literal (which holds for every well-formed `overall_score`
value); raw text that parses as non-object JSON (for example `"null"`), or a
malformed score token such as `overall_score: .`, escapes the fallback and
aborts the run. -/
theorem C5_no_raise_when_json_parse_fails (raw : String) (st : FlowState)
    (hjson : (Json.loads raw).isNone = true)
    (htok : ∀ tok, searchScore raw = some tok → (pyFloatOfToken tok).isSome = true) :
    (applyValidation raw st).isOk = true := by
  simp only [applyValidation]
  cases hj : Json.loads raw with
  | some j => rw [hj] at hjson; simp at hjson
  | none =>
    rw [parseScorePassed_tier2 raw st.validation_score hj]
    cases hsc : searchScore raw with
    | some tok =>
      have := htok tok hsc
      simp only [hsc]
      cases hf : pyFloatOfToken tok with
      | some q => simp only [hf]; rfl
      | none => rw [hf] at this; simp at this
    | none => simp only [hsc]; rfl

/-- Witness for C5 (amended), at a plain-text input with no score pattern. -/
theorem C5_no_raise_witness :
    (applyValidation "hello world" ({} : FlowState)).isOk = true :=
  C5_no_raise_when_json_parse_fails "hello world" ({} : FlowState) (by decide)
    (fun tok h => by rw [show searchScore "hello world" = Option.none from by decide] at h; cases h)

/-- C10: the pattern-extraction tier is not atomic on the run state — when
the JSON parse fails and the text contains no `overall_score` pattern, the
state's `validation_score` keeps its value from before the call (on a looped
iteration, the previous iteration's score), and only the passed flag is
rewritten: to the extracted flag if a `validation_passed` pattern exists,
else to the threshold comparison against that retained score (`main.py`
lines 195-201). -/
theorem C10_score_frame_on_missing_pattern (raw : String) (st st' : FlowState)
    (hjson : (Json.loads raw).isNone = true)
    (hsc : searchScore raw = Option.none)
    (hok : applyValidation raw st = Except.ok st') :
    st'.validation_score = st.validation_score
    ∧ st'.validation_passed =
        (searchPassed raw).getD (decide (Dec.le VALIDATION_THRESHOLD st.validation_score)) := by
  simp only [applyValidation] at hok
  cases hj : Json.loads raw with
  | some j => rw [hj] at hjson; simp at hjson
  | none =>
    rw [parseScorePassed_tier2 raw st.validation_score hj] at hok
    simp only [hsc] at hok
    cases hok
    exact ⟨rfl, rfl⟩

/-- Witness for C10: text with a passed pattern but no score pattern, on a
state carrying score 0.5 from an earlier iteration. -/
theorem C10_score_frame_witness :
    ({ requirements_text := "REQ", validation_report := "validation_passed: true",
        validation_passed := true, validation_score := ⟨5, 1⟩ } : FlowState).validation_score =
      ({ requirements_text := "REQ", validation_score := ⟨5, 1⟩ } : FlowState).validation_score
    ∧ ({ requirements_text := "REQ", validation_report := "validation_passed: true",
          validation_passed := true, validation_score := ⟨5, 1⟩ } : FlowState).validation_passed =
        (searchPassed "validation_passed: true").getD
          (decide (Dec.le VALIDATION_THRESHOLD
            ({ requirements_text := "REQ", validation_score := ⟨5, 1⟩ } : FlowState).validation_score)) :=
  C10_score_frame_on_missing_pattern "validation_passed: true"
    { requirements_text := "REQ", validation_score := ⟨5, 1⟩ }
    { requirements_text := "REQ", validation_report := "validation_passed: true",
      validation_passed := true, validation_score := ⟨5, 1⟩ }
    (by decide) (by decide) (by decide)

/-! ## The search tool (`tools/weaviate_tool.py` and `tools/weaviate_setup.py`)

`WeaviateQueryTool._run` (lines 42-151): argument recovery, input validation,
the query against the external index, result formatting, and the
exception-to-string boundary.  The Weaviate client is the backend oracle: a
ranked match list per (query, filter) or a transport failure; the `limit` is
applied to the ranked list (the documented contract of `near_text`). -/

/-- A Python value as received by `_run` through CrewAI. -/
inductive PyVal where
  | none : PyVal
  | str (s : String) : PyVal
  | int (n : Int) : PyVal
  | bool (b : Bool) : PyVal
  | float (q : Dec) : PyVal
  | list (xs : List PyVal) : PyVal
  | dict (kvs : List (String × PyVal)) : PyVal

/-- A single-quote character, for building the literal error messages. -/
def sglq : String := (Char.ofNat 39).toString

def PyVal.isNone : PyVal → Bool
  | PyVal.none => true
  | _ => false

/-- Python `type(v).__name__`. -/
def pyTypeName : PyVal → String
  | PyVal.none => "NoneType"
  | PyVal.str _ => "str"
  | PyVal.int _ => "int"
  | PyVal.bool _ => "bool"
  | PyVal.float _ => "float"
  | PyVal.list _ => "list"
  | PyVal.dict _ => "dict"

/-- Python truthiness. -/
def pyTruthy : PyVal → Bool
  | PyVal.none => false
  | PyVal.str s => s ≠ ""
  | PyVal.int n => n ≠ 0
  | PyVal.bool b => b
  | PyVal.float q => q.mant ≠ 0
  | PyVal.list xs => !xs.isEmpty
  | PyVal.dict kvs => !kvs.isEmpty

/-- Python `d.get(k)` (default `None` is supplied by the caller as `getD`). -/
def pyGet (kvs : List (String × PyVal)) (k : String) : Option PyVal :=
  List.lookup k kvs

/-- The fallback key scan of `_run` (lines 56-65): `kwargs["query"]`, else the
first of `"query"`, `"search"`, `"q"` present in `kwargs`, else `None`. -/
def findFallbackKey (kwargs : List (String × PyVal)) : PyVal :=
  match List.lookup "query" kwargs with
  | some v => v
  | Option.none =>
    match List.lookup "search" kwargs with
    | some v => v
    | Option.none =>
      match List.lookup "q" kwargs with
      | some v => v
      | Option.none => PyVal.none

/-- The list-format recovery scan of `_run` (lines 69-78): the first kwargs
value that is a non-empty list whose first element is a dict. -/
def findListDict : List (String × PyVal) → Option (List (String × PyVal))
  | [] => Option.none
  | (_, PyVal.list (PyVal.dict d :: _)) :: _ => some d
  | _ :: rest => findListDict rest

/-- The resolved `(query, limit, standard_filter)` arguments. -/
structure ToolArgs where
  query : PyVal
  limit : PyVal
  standard_filter : PyVal

/-- The argument-recovery preamble of `_run` (lines 54-78): when `query` is
`None`, try the kwargs keys; when it is still `None`, unwrap the first
element of a list-of-dicts kwargs value to obtain `query`, `limit` and
`standard_filter`. -/
def resolveArgs (query limit sf : PyVal) (kwargs : List (String × PyVal)) : ToolArgs :=
  let query1 := if query.isNone then findFallbackKey kwargs else query
  match (if query1.isNone then findListDict kwargs else Option.none) with
  | some d =>
    ⟨(pyGet d "query").getD PyVal.none, (pyGet d "limit").getD limit,
      (pyGet d "standard_filter").getD sf⟩
  | Option.none => ⟨query1, limit, sf⟩

/-- The query-validation error string of `_run` (lines 82-86), with the
Python-truthiness quirk of `type(query).__name__ if query else 'None'`. -/
def queryErrMsg (q : PyVal) : String :=
  "Error: " ++ sglq ++ "query" ++ sglq ++ " must be a string, got " ++
    (if pyTruthy q then pyTypeName q else "None") ++ ".\n" ++
  "Please call the tool with: \x7b" ++ sglq ++ "query" ++ sglq ++ ": " ++ sglq ++
    "your search term" ++ sglq ++ ", " ++ sglq ++ "limit" ++ sglq ++ ": 5\x7d\n" ++
  "Or as a list: [\x7b" ++ sglq ++ "query" ++ sglq ++ ": " ++ sglq ++
    "your search term" ++ sglq ++ ", " ++ sglq ++ "limit" ++ sglq ++ ": 5\x7d]"

/-- The limit-coercion error string of `_run` (lines 92-95). -/
def limitErrMsg (name : String) : String :=
  "Error: " ++ sglq ++ "limit" ++ sglq ++ " must be an integer, got " ++ name ++ ".\n" ++
  "Please call the tool with: \x7b" ++ sglq ++ "query" ++ sglq ++ ": " ++ sglq ++
    "your search term" ++ sglq ++ ", " ++ sglq ++ "limit" ++ sglq ++ ": 5\x7d"

/-- Python `isinstance(v, int)` (`bool` is a subclass of `int`). -/
def isInstInt : PyVal → Bool
  | PyVal.int _ => true
  | PyVal.bool _ => true
  | _ => false

/-- The integer value of a value that `isinstance(_, int)` accepted. -/
def intValOf : PyVal → Int
  | PyVal.int n => n
  | PyVal.bool b => if b then 1 else 0
  | _ => 0

/-- All-digit parse for `int(str)`. -/
def digitsOnly (ds : List Char) : Option Nat :=
  if ds ≠ [] ∧ ds.all Char.isDigit then some (digitsToNat ds) else Option.none

/-- Python `int()` on a string: strip whitespace, optional sign, digits
(digit-group underscores and non-ASCII digits are not modelled; no claim
exercises them). -/
def pyIntOfString (s : String) : Option Int :=
  let cs := ((s.data.dropWhile pySpace).reverse.dropWhile pySpace).reverse
  match cs with
  | '+' :: ds => (digitsOnly ds).map Int.ofNat
  | '-' :: ds => (digitsOnly ds).map (fun n => -(n : Int))
  | ds => (digitsOnly ds).map Int.ofNat

/-- Python `int()` applied to a non-`isinstance(_, int)` value (line 90):
floats truncate toward zero, numeric strings parse, everything else raises
(`ValueError`/`TypeError`, modelled as `none`). -/
def pyIntCoerce : PyVal → Option Int
  | PyVal.float q =>
    some (if q.mant ≥ 0 then Int.ofNat (q.mant.toNat / 10 ^ q.scale)
          else -Int.ofNat ((-q.mant).toNat / 10 ^ q.scale))
  | PyVal.str s => pyIntOfString s
  | PyVal.int n => some n
  | _ => Option.none

/-- A stored record as the query returns it: Weaviate `TEXT` properties. -/
abbrev Props := List (String × String)

/-- `props.get(k, dflt)` (lines 137-141). -/
def propsGet (p : Props) (k dflt : String) : String :=
  (List.lookup k p).getD dflt

/-- The external index: the ranked matches for (query, normalized filter), or
a transport/backend failure message.  (Relevance ranking is the index's,
out of scope; `_run` passes `limit` to `near_text`, whose contract returns at
most `limit` of them, modelled by `List.take` at the call site.) -/
abbrev Backend := String → Option String → Except String (List Props)

/-- The `standard_filter` normalization of `_run` (lines 114-122): Python
truthiness gate, `upper()`, fixed synonym table with the original value as
fallback; a truthy non-string raises `AttributeError` inside the `try`
(surfacing as the boundary error string). -/
def normalizeFilter (sf : PyVal) : Except String (Option String) :=
  if pyTruthy sf then
    match sf with
    | PyVal.str s =>
      let u := s.toUpper
      Except.ok (some (if u = "OWASP" then "OWASP" else if u = "NIST" then "NIST"
        else if u = "ISO27001" then "ISO27001" else if u = "ISO" then "ISO27001" else s))
    | v =>
      Except.error (sglq ++ pyTypeName v ++ sglq ++ " object has no attribute " ++
        sglq ++ "upper" ++ sglq)
  else Except.ok Option.none

/-- One rendered result block (lines 136-142): rank, `standard`, `req_id`,
chapter, section, level, `req_description`, with the literal defaults. -/
def formatBlock (i : Nat) (p : Props) : String :=
  toString i ++ ". [" ++ propsGet p "standard" "Unknown" ++ "] " ++
    propsGet p "req_id" "N/A" ++
  "\n   Chapter: " ++ propsGet p "chapter_id" "" ++ " - " ++ propsGet p "chapter_name" "" ++
  "\n   Section: " ++ propsGet p "section_id" "" ++ " - " ++ propsGet p "section_name" "" ++
  "\n   Level: " ++ propsGet p "level" "N/A" ++
  "\n   Requirement: " ++ propsGet p "req_description" "No description" ++ "\n"

/-- `"\n".join(results)` over `enumerate(response.objects, 1)` (lines 133-145). -/
def formatResults (objs : List Props) : String :=
  String.intercalate "\n" (objs.enum.map (fun e => formatBlock (e.1 + 1) e.2))

/-- The `try` body of `_run` (lines 97-151): filter normalization, the
`near_text` query, the no-match sentinel, the rendered blocks; every
exception becomes the boundary error string. -/
def queryPhase (q : String) (limitN : Int) (sf : PyVal) (backend : Backend) : String :=
  match normalizeFilter sf with
  | Except.error e => "Error querying security standards database: " ++ e
  | Except.ok filt =>
    match backend q filt with
    | Except.error e => "Error querying security standards database: " ++ e
    | Except.ok ranked =>
      let objs := ranked.take limitN.toNat
      if objs = [] then "No relevant security controls found."
      else formatResults objs

/-- `WeaviateQueryTool._run`.  Total by construction: every failure path of
the source returns a string (the `except Exception` boundary), so the model
returns `String`, not `Except`. -/
def runTool (query limit sf : PyVal) (kwargs : List (String × PyVal))
    (backend : Backend) : String :=
  let a := resolveArgs query limit sf kwargs
  match a.query with
  | PyVal.str q =>
    (match (if isInstInt a.limit then some (intValOf a.limit) else pyIntCoerce a.limit) with
     | some limitN => queryPhase q limitN a.standard_filter backend
     | Option.none => limitErrMsg (pyTypeName a.limit))
  | qv => queryErrMsg qv

/-- A record of a prepared catalog artifact (`data/prepare_*.py`): all five
fields are present in every artifact the loaders emit. -/
structure ControlRecord where
  standard_name : String
  control_id : String
  title : String
  description : String
  category : String

/-- The object built by `ingest_security_standards` for one control
(`weaviate_setup.py` lines 100-113): properties `standard`, `control_id`,
`title`, `description`, `category`, `full_text`. -/
def ingestObj (c : ControlRecord) : Props :=
  [("standard", c.standard_name), ("control_id", c.control_id), ("title", c.title),
    ("description", c.description), ("category", c.category),
    ("full_text", c.title ++ " " ++ c.description ++ " " ++ c.category)]

/-- The first OWASP authentication control of `prepare_owasp_asvs.py`. -/
def owaspV211 : ControlRecord :=
  { standard_name := "OWASP", control_id := "V2.1.1",
    title := "Password Strength Requirements",
    description := "Verify that user set passwords are at least 12 characters in length.",
    category := "Authentication" }

/-- On an empty kwargs dict the recovery preamble is the identity. -/
theorem resolveArgs_nil (q l s : PyVal) : resolveArgs q l s [] = ⟨q, l, s⟩ := by
  cases q <;> rfl

/-- C7 counterexample: the empty string IS accepted as a query — the
validation of `_run` (line 81) checks only `isinstance(query, str)`, not
non-emptiness, so `query=""` proceeds to the backend (here: to the no-match
sentinel) instead of the query-validation error string. -/
theorem C7_cex_empty_query_accepted :
    runTool (PyVal.str "") (PyVal.int 1) PyVal.none [] (fun _ _ => Except.ok []) =
      "No relevant security controls found."
    ∧ runTool (PyVal.str "") (PyVal.int 1) PyVal.none [] (fun _ _ => Except.ok []) ≠
        queryErrMsg (PyVal.str "") := by
  constructor
  · rfl
  · decide

/-- C7 (amended): `_run` validates that the query is a string (`None` and
every non-string value get the descriptive error string; emptiness is not
checked).  When the supplied `query` is `None` and a kwargs value is a
non-empty list whose first element is a dict, the call behaves exactly like a
call on the unwrapped `query`/`limit`/`standard_filter` of that first
element; when the supplied query itself is a malformed shape such as the list
`["encryption"]` (from input `{"query": ["encryption"], "limit": 3}`), no
unwrapping is attempted and the descriptive error string is returned — and
the model is total, so no input raises. -/
theorem C7_query_validation_and_recovery (k : String) (d : List (String × PyVal))
    (tl : List PyVal) (limit sf : PyVal) (kwargs' : List (String × PyVal))
    (backend : Backend)
    (hk1 : List.lookup "query" ((k, PyVal.list (PyVal.dict d :: tl)) :: kwargs') = Option.none)
    (hk2 : List.lookup "search" ((k, PyVal.list (PyVal.dict d :: tl)) :: kwargs') = Option.none)
    (hk3 : List.lookup "q" ((k, PyVal.list (PyVal.dict d :: tl)) :: kwargs') = Option.none) :
    runTool PyVal.none limit sf ((k, PyVal.list (PyVal.dict d :: tl)) :: kwargs') backend =
      runTool ((pyGet d "query").getD PyVal.none) ((pyGet d "limit").getD limit)
        ((pyGet d "standard_filter").getD sf) [] backend
    ∧ runTool (PyVal.list [PyVal.str "encryption"]) (PyVal.int 3) PyVal.none [] backend =
        queryErrMsg (PyVal.list [PyVal.str "encryption"])
    ∧ runTool PyVal.none limit sf [] backend = queryErrMsg PyVal.none := by
  refine ⟨?_, rfl, ?_⟩
  · have h1 : resolveArgs PyVal.none limit sf
        ((k, PyVal.list (PyVal.dict d :: tl)) :: kwargs') =
        ⟨(pyGet d "query").getD PyVal.none, (pyGet d "limit").getD limit,
          (pyGet d "standard_filter").getD sf⟩ := by
      simp [resolveArgs, findFallbackKey, hk1, hk2, hk3, findListDict, PyVal.isNone]
    simp only [runTool, h1, resolveArgs_nil]
  · simp only [runTool, resolveArgs_nil]

/-- Witness for C7 (amended): unwrapping `[{"query": "encryption", "limit": 2}]`
passed under an unrelated kwargs key. -/
theorem C7_query_validation_witness :
    runTool PyVal.none (PyVal.int 4) PyVal.none
        [("args", PyVal.list [PyVal.dict
          [("query", PyVal.str "encryption"), ("limit", PyVal.int 2)]])]
        (fun _ _ => Except.ok []) =
      runTool ((pyGet [("query", PyVal.str "encryption"), ("limit", PyVal.int 2)]
            "query").getD PyVal.none)
        ((pyGet [("query", PyVal.str "encryption"), ("limit", PyVal.int 2)]
            "limit").getD (PyVal.int 4))
        ((pyGet [("query", PyVal.str "encryption"), ("limit", PyVal.int 2)]
            "standard_filter").getD PyVal.none)
        [] (fun _ _ => Except.ok [])
    ∧ runTool (PyVal.list [PyVal.str "encryption"]) (PyVal.int 3) PyVal.none []
        (fun _ _ => Except.ok []) =
        queryErrMsg (PyVal.list [PyVal.str "encryption"])
    ∧ runTool PyVal.none (PyVal.int 4) PyVal.none [] (fun _ _ => Except.ok []) =
        queryErrMsg PyVal.none :=
  C7_query_validation_and_recovery "args"
    [("query", PyVal.str "encryption"), ("limit", PyVal.int 2)] [] (PyVal.int 4)
    PyVal.none [] (fun _ _ => Except.ok []) rfl rfl rfl

/-- C8: the search boundary converts failures to strings instead of raising
(the model is total by construction): a `limit` that is not an `int` and does
not coerce produces the descriptive limit error string, and a
transport/backend failure during the query produces the descriptive backend
error string (`_run` lines 88-95 and 150-151). -/
theorem C8_boundary_error_strings (qs : String) (limitBad sf : PyVal)
    (backend : Backend) (e : String)
    (hnotint : isInstInt limitBad = false)
    (hcoerce : pyIntCoerce limitBad = Option.none)
    (hback : backend qs Option.none = Except.error e) :
    runTool (PyVal.str qs) limitBad sf [] backend = limitErrMsg (pyTypeName limitBad)
    ∧ runTool (PyVal.str qs) (PyVal.int 4) PyVal.none [] backend =
        "Error querying security standards database: " ++ e := by
  constructor
  · simp [runTool, resolveArgs_nil, hnotint, hcoerce]
  · simp [runTool, resolveArgs_nil, isInstInt, intValOf, queryPhase, normalizeFilter,
      pyTruthy, hback]

/-- Witness for C8: an uncoercible string limit, and a refused connection. -/
theorem C8_boundary_error_strings_witness :
    runTool (PyVal.str "encryption") (PyVal.str "abc") PyVal.none []
        (fun _ _ => Except.error "connection refused") =
      limitErrMsg (pyTypeName (PyVal.str "abc"))
    ∧ runTool (PyVal.str "encryption") (PyVal.int 4) PyVal.none []
        (fun _ _ => Except.error "connection refused") =
        "Error querying security standards database: " ++ "connection refused" :=
  C8_boundary_error_strings "encryption" (PyVal.str "abc") PyVal.none
    (fun _ _ => Except.error "connection refused") "connection refused" rfl rfl rfl

/-- Substring test on character lists, for exhibiting absent content. -/
def substrB : List Char → List Char → Bool
  | needle, [] => needle.isEmpty
  | needle, hay@(_ :: t) => needle.isPrefixOf hay || substrB needle t

/-- C9 (divergence exhibit): a record stored by the repository's own
ingestion (`ingest_security_standards`, properties `standard`, `control_id`,
`title`, `description`, `category`, `full_text`) is rendered by `_run` with
the placeholder defaults in the control-id, chapter, section, level and
description slots, because the tool reads `req_id`, `chapter_*`, `section_*`,
`level`, `req_description` — properties the ingestion never writes.  Only the
rank and `standard` come from the stored record; the stored control id
`V2.1.1` and the stored description do not appear in the block.  The
no-match sentinel behaves as claimed. -/
theorem C9_stored_fields_not_rendered :
    runTool (PyVal.str "password strength") (PyVal.int 4) PyVal.none []
        (fun _ _ => Except.ok [ingestObj owaspV211]) =
      "1. [OWASP] N/A\n   Chapter:  - \n   Section:  - \n   Level: N/A\n   Requirement: No description\n"
    ∧ owaspV211.control_id = "V2.1.1"
    ∧ (substrB "V2.1.1".data
        ("1. [OWASP] N/A\n   Chapter:  - \n   Section:  - \n   Level: N/A\n   Requirement: No description\n".data)
        = false)
    ∧ (substrB owaspV211.description.data
        ("1. [OWASP] N/A\n   Chapter:  - \n   Section:  - \n   Level: N/A\n   Requirement: No description\n".data)
        = false)
    ∧ runTool (PyVal.str "password strength") (PyVal.int 4) PyVal.none []
        (fun _ _ => Except.ok []) = "No relevant security controls found." := by
  refine ⟨rfl, rfl, by decide, by decide, rfl⟩
